import Mathlib

/-!
Verification of the nervemq Python example workflow
(`src/examples/python/example.py` and
`src/examples/python/nervemq_example/main.py`).

Both scripts run the same three-step workflow against an SQS service:
1. resolve a queue handle for the queue name `"bruh"` by calling
   `get_queue_url`, falling back to `create_queue` inside a bare
   `except:` block;
2. publish the message body `"Hello World!"` with one message
   attribute `Test = {DataType: "String", StringValue: "TestString"}`;
3. poll for messages with `MaxNumberOfMessages=10`,
   `VisibilityTimeout=0`, `WaitTimeSeconds=0`,
   `ReceiveRequestAttemptId="1"`.

The client side is embedded directly from the two scripts.  The nervemq
service itself is not part of the example sources, so the service-side
behaviour needed by some claims is modelled from the spec; those
definitions carry a `Modelled from the spec:` doc comment.
-/

namespace NerveMQ

/-- Error kinds an SQS call can raise (boto3 raises exceptions for all
of them; the scripts distinguish none). -/
inductive SqsError
  | notFound
  | transport
  | authorization
  | validation
  deriving DecidableEq, Repr

/-- A message attribute value as the scripts build it:
`{'StringValue': ..., 'DataType': ...}` — the data-type tag is an
explicit field, never derived from the value. -/
structure MessageAttributeValue where
  dataType : String
  stringValue : String
  deriving DecidableEq, Repr

/-- Response of `get_queue_url`; `res.get('QueueUrl')` yields `none`
when the key is absent. -/
structure GetQueueUrlResponse where
  queueUrl : Option String
  deriving DecidableEq, Repr

/-- Response of `create_queue`; `res.get('QueueUrl')` yields `none`
when the key is absent. -/
structure CreateQueueResponse where
  queueUrl : Option String
  deriving DecidableEq, Repr

/-- Response of `send_message`; `response.get('MessageId')` yields
`none` when the key is absent. -/
structure SendMessageResponse where
  messageId : Option String
  deriving DecidableEq, Repr

/-- A message as returned inside a `receive_message` batch. -/
structure InboundMessage where
  messageId : String
  body : String
  messageAttributes : List (String × MessageAttributeValue)
  deriving DecidableEq, Repr

/-- The `send_message` request exactly as the scripts assemble it
(example.py lines 26-32). -/
structure SendMessageRequest where
  queueUrl : Option String
  messageBody : String
  messageAttributes : List (String × MessageAttributeValue)
  deriving DecidableEq, Repr

/-- The `receive_message` request exactly as the scripts assemble it
(example.py lines 36-44). -/
structure ReceiveMessageRequest where
  queueUrl : Option String
  attributeNames : List String
  messageAttributeNames : List String
  maxNumberOfMessages : Nat
  visibilityTimeout : Nat
  waitTimeSeconds : Nat
  receiveRequestAttemptId : String
  deriving DecidableEq, Repr

/-- The client configuration passed to `boto3.client` in each script. -/
structure ClientConfig where
  accessKeyId : String
  secretAccessKey : String
  regionName : String
  endpointUrl : String
  deriving DecidableEq, Repr

/-- Arguments of `boto3.client(...)` in `example.py` (lines 8-14). -/
def exampleConfig : ClientConfig :=
  { accessKeyId := "PdNJWCvVtcc"
    secretAccessKey := "JosFLEGqsRdmQ4hE1ppVEZ1qKV3M3bVFN"
    regionName := "us-west-1"
    endpointUrl := "http://localhost:8080/sqs" }

/-- Arguments of `boto3.client(...)` in `nervemq_example/main.py`
(lines 8-14). -/
def nervemqExampleConfig : ClientConfig :=
  { accessKeyId := "UyTz3t56rjb"
    secretAccessKey := "GoLqobpKZiKyvdrGB5jmbmTizHsC12cXH"
    regionName := "us-west-1"
    endpointUrl := "http://localhost:8080/sqs" }

/-- One SQS call issued by the client, recorded in order. -/
inductive Op
  | getQueueUrl (queueName : String)
  | createQueue (queueName : String)
  | sendMessage (req : SendMessageRequest)
  | receiveMessage (req : ReceiveMessageRequest)
  deriving DecidableEq, Repr

/-- The service as the client sees it: an oracle answering each call;
errors are the exceptions boto3 raises. -/
structure Service where
  getQueueUrl : String → Except SqsError GetQueueUrlResponse
  createQueue : String → Except SqsError CreateQueueResponse
  sendMessage : SendMessageRequest → Except SqsError SendMessageResponse
  receiveMessage : ReceiveMessageRequest → Except SqsError (Option (List InboundMessage))

/-- The try/except block of both scripts (example.py lines 16-22):
attempt `get_queue_url`; a bare `except:` catches ANY exception and
falls back to `create_queue`.  Returns the resolved handle (or the
error the uncaught `create_queue` raised) together with the calls
issued. -/
def resolveQueue (svc : Service) (queueName : String) :
    Except SqsError (Option String) × List Op :=
  match svc.getQueueUrl queueName with
  | .ok res => (.ok res.queueUrl, [.getQueueUrl queueName])
  | .error _ =>
    match svc.createQueue queueName with
    | .ok res =>
        (.ok res.queueUrl, [.getQueueUrl queueName, .createQueue queueName])
    | .error e =>
        (.error e, [.getQueueUrl queueName, .createQueue queueName])

/-- The `send_message` request literal of both scripts
(example.py lines 26-32). -/
def theSendRequest (url : Option String) : SendMessageRequest :=
  { queueUrl := url
    messageBody := "Hello World!"
    messageAttributes :=
      [("Test", { dataType := "String", stringValue := "TestString" })] }

/-- The `receive_message` request literal of both scripts
(example.py lines 36-44); the two scripts differ only in
`MessageAttributeNames`. -/
def theReceiveRequest (url : Option String) (msgAttrNames : List String) :
    ReceiveMessageRequest :=
  { queueUrl := url
    attributeNames := ["All"]
    messageAttributeNames := msgAttrNames
    maxNumberOfMessages := 10
    visibilityTimeout := 0
    waitTimeSeconds := 0
    receiveRequestAttemptId := "1" }

/-- The whole `main()` body, parameterised by the one literal in which
the two scripts differ (`MessageAttributeNames`).  Returns the ordered
call trace and the final outcome: resolved handle and the value of
`response.get('Messages')`, or the first uncaught exception. -/
def runMain (svc : Service) (msgAttrNames : List String) :
    List Op × Except SqsError (Option String × Option (List InboundMessage)) :=
  match resolveQueue svc "bruh" with
  | (.error e, ops) => (ops, .error e)
  | (.ok url, ops) =>
    let sreq := theSendRequest url
    match svc.sendMessage sreq with
    | .error e => (ops ++ [.sendMessage sreq], .error e)
    | .ok _ =>
      let rreq := theReceiveRequest url msgAttrNames
      match svc.receiveMessage rreq with
      | .error e => (ops ++ [.sendMessage sreq, .receiveMessage rreq], .error e)
      | .ok msgs =>
          (ops ++ [.sendMessage sreq, .receiveMessage rreq], .ok (url, msgs))

/-- The `main()` of `example.py`: `MessageAttributeNames=['Test']`. -/
def examplePyMain (svc : Service) :
    List Op × Except SqsError (Option String × Option (List InboundMessage)) :=
  runMain svc ["Test"]

/-- The `main()` of `nervemq_example/main.py`:
`MessageAttributeNames=['All']`. -/
def nervemqMainPy (svc : Service) :
    List Op × Except SqsError (Option String × Option (List InboundMessage)) :=
  runMain svc ["All"]

/-- Whether an op is `create_queue` for the given queue name. -/
def isCreateOf (name : String) : Op → Bool
  | .createQueue n => n == name
  | _ => false

/-- Number of `create_queue` calls for `name` in a trace. -/
def createCount (name : String) (ops : List Op) : Nat :=
  ops.countP (isCreateOf name)

/-- Modelled from the spec: the nervemq server's queue registry (the
server code is not among the example sources).  The registry is the set
of queue names that exist. -/
structure ServiceState where
  queues : List String
  deriving DecidableEq, Repr

/-- Modelled from the spec: the queue URL the service derives
deterministically from the queue name under its endpoint. -/
def queueUrlOf (name : String) : String :=
  "http://localhost:8080/sqs/" ++ name

/-- Modelled from the spec: `GetQueueUrl` returns the queue's URL when
the queue exists and raises a not-found error otherwise. -/
def lookupQueue (s : ServiceState) (name : String) :
    Except SqsError GetQueueUrlResponse :=
  if s.queues.contains name then .ok { queueUrl := some (queueUrlOf name) }
  else .error .notFound

/-- Modelled from the spec: `CreateQueue` registers the queue and
returns its URL. -/
def createQueueSvc (s : ServiceState) (name : String) :
    ServiceState × CreateQueueResponse :=
  ({ queues := name :: s.queues }, { queueUrl := some (queueUrlOf name) })

/-- Outcome of one run of the resolve step against the modelled
service: the service state afterwards, the handle the client obtained,
and whether the fallback `create_queue` was invoked. -/
structure ResolveOutcome where
  state : ServiceState
  url : Option String
  createdQueue : Bool
  deriving DecidableEq, Repr

/-- The resolve step (example.py lines 16-22) run against the modelled
stateful service: try the lookup; on any error fall back to create. -/
def resolveAgainst (s : ServiceState) (name : String) : ResolveOutcome :=
  match lookupQueue s name with
  | .ok res => { state := s, url := res.queueUrl, createdQueue := false }
  | .error _ =>
      let (s', res) := createQueueSvc s name
      { state := s', url := res.queueUrl, createdQueue := true }

/-- Modelled from the spec: a queue's message store on the server —
messages in arrival order, plus the counter the server uses to mint
fresh message ids. -/
structure QueueState where
  nextId : Nat
  messages : List InboundMessage
  deriving DecidableEq, Repr

/-- Modelled from the spec: `SendMessage` appends the message with a
fresh (non-empty) MessageId and returns that id. -/
def publishSvc (q : QueueState) (req : SendMessageRequest) :
    QueueState × SendMessageResponse :=
  let mid := "msg-" ++ toString q.nextId
  ({ nextId := q.nextId + 1
     messages := q.messages ++
       [{ messageId := mid, body := req.messageBody
          messageAttributes := req.messageAttributes }] },
   { messageId := some mid })

/-- Modelled from the spec: message-attribute filtering on receive —
the name `"All"` selects every stored attribute; otherwise only
attributes whose name was requested are returned, and requested names
the message does not carry are silently omitted. -/
def filterAttributes (requested : List String)
    (attrs : List (String × MessageAttributeValue)) :
    List (String × MessageAttributeValue) :=
  if requested.contains "All" then attrs
  else attrs.filter (fun a => requested.contains a.1)

/-- Modelled from the spec: `ReceiveMessage` returns up to
`MaxNumberOfMessages` messages from the front of the queue, each with
its attributes filtered by the requested attribute names. -/
def receiveSvc (q : QueueState) (req : ReceiveMessageRequest) :
    List InboundMessage :=
  (q.messages.take req.maxNumberOfMessages).map fun m =>
    { m with messageAttributes :=
        filterAttributes req.messageAttributeNames m.messageAttributes }

/-- Modelled from the spec: the boto3 client layer (not among the
example sources) copies the caller-supplied `ReceiveRequestAttemptId`
into the wire request unchanged; this builds the request the scripts
issue with the token the caller supplied. -/
def clientReceiveRequest (url : Option String) (msgAttrNames : List String)
    (dedupToken : String) : ReceiveMessageRequest :=
  { theReceiveRequest url msgAttrNames with
      receiveRequestAttemptId := dedupToken }

/-- Modelled from the spec: the service collapses receive calls that
carry the same `ReceiveRequestAttemptId` into one logical attempt — a
repeated token replays the recorded batch instead of delivering the
messages anew.  `attempts` maps tokens already seen to their batches. -/
def receiveDedup (q : QueueState)
    (attempts : List (String × List InboundMessage))
    (req : ReceiveMessageRequest) :
    List InboundMessage × List (String × List InboundMessage) :=
  match attempts.lookup req.receiveRequestAttemptId with
  | some batch => (batch, attempts)
  | none =>
      let batch := receiveSvc q req
      (batch, (req.receiveRequestAttemptId, batch) :: attempts)

/-- Erase the one field in which the two scripts' receive requests
differ, for comparing their call traces. -/
def eraseMsgAttrNames : Op → Op
  | .receiveMessage req => .receiveMessage { req with messageAttributeNames := [] }
  | o => o

/-- A service oracle whose lookup answer is fixed and whose other calls
succeed, used to evaluate the workflow on concrete runs. -/
def constService (g : Except SqsError GetQueueUrlResponse) : Service :=
  { getQueueUrl := fun _ => g
    createQueue := fun n => .ok { queueUrl := some (queueUrlOf n) }
    sendMessage := fun _ => .ok { messageId := some "msg-0" }
    receiveMessage := fun _ => .ok (some []) }

/-- Concrete run: the lookup succeeds with a queue URL. -/
def svcAllOk : Service := constService (.ok { queueUrl := some (queueUrlOf "bruh") })

/-- Concrete run: the lookup raises a not-found error. -/
def svcNotFound : Service := constService (.error .notFound)

/-- Concrete run: the lookup raises a transport error. -/
def svcTransportLookup : Service := constService (.error .transport)

/-- Concrete run: the lookup succeeds but its response has no
`QueueUrl` key. -/
def svcNoUrl : Service := constService (.ok { queueUrl := none })

/-- Concrete run: the lookup raises a not-found error and the fallback
create succeeds but its response has no `QueueUrl` key. -/
def svcCreateNoUrl : Service :=
  { getQueueUrl := fun _ => .error .notFound
    createQueue := fun _ => .ok { queueUrl := none }
    sendMessage := fun _ => .ok { messageId := some "msg-0" }
    receiveMessage := fun _ => .ok (some []) }

/-- A concrete attribute list carrying the example's `Test` attribute
and one more. -/
def sampleAttrs : List (String × MessageAttributeValue) :=
  [("Test", { dataType := "String", stringValue := "TestString" }),
   ("Color", { dataType := "String", stringValue := "blue" })]

/-- A concrete empty queue. -/
def emptyQueue : QueueState := { nextId := 0, messages := [] }

/-- C1 counterexample: when the lookup raises a transport error (not a
not-found error), the bare `except:` of example.py lines 16-22 still
invokes `create_queue` and swallows the error instead of propagating
it, contradicting the claim that "not found" is the only condition
triggering the fallback create. -/
theorem C1_counterexample :
    svcTransportLookup.getQueueUrl "bruh" = .error .transport ∧
    (resolveQueue svcTransportLookup "bruh").2 =
      [.getQueueUrl "bruh", .createQueue "bruh"] ∧
    (resolveQueue svcTransportLookup "bruh").1 =
      .ok (some (queueUrlOf "bruh")) := by
  refine ⟨rfl, ?_, ?_⟩ <;>
    simp [resolveQueue, svcTransportLookup, constService]

/-- C1 (amended): ANY error raised by the lookup — not only "not
found" — triggers the fallback create call; no lookup error reaches
the caller, and the resolve step's outcome is then exactly the
outcome of the create call (only an error raised by `create_queue`
itself propagates). -/
theorem C1_bare_except_catches_all (svc : Service) (name : String)
    (e : SqsError) (h : svc.getQueueUrl name = .error e) :
    (resolveQueue svc name).2 = [.getQueueUrl name, .createQueue name] ∧
    (resolveQueue svc name).1 =
      match svc.createQueue name with
      | .ok res => .ok res.queueUrl
      | .error e2 => .error e2 := by
  cases hc : svc.createQueue name <;> simp [resolveQueue, h, hc]

/-- Witness for the amended C1 at the transport-error run. -/
theorem C1_bare_except_catches_all_witness :
    (resolveQueue svcTransportLookup "bruh").2 =
      [.getQueueUrl "bruh", .createQueue "bruh"] ∧
    (resolveQueue svcTransportLookup "bruh").1 =
      match svcTransportLookup.createQueue "bruh" with
      | .ok res => .ok res.queueUrl
      | .error e2 => .error e2 :=
  C1_bare_except_catches_all svcTransportLookup "bruh" .transport rfl

/-- C2: in every run of the resolve step, if the lookup raises a
not-found error then `create_queue` is invoked exactly once before the
step returns, and if the lookup succeeds then `create_queue` is not
invoked at all and the handle is the one the lookup response carried. -/
theorem C2_lookup_create_discipline (svc : Service) (name : String) :
    (svc.getQueueUrl name = .error .notFound →
      createCount name (resolveQueue svc name).2 = 1) ∧
    (∀ res, svc.getQueueUrl name = .ok res →
      createCount name (resolveQueue svc name).2 = 0 ∧
      (resolveQueue svc name).1 = .ok res.queueUrl) := by
  constructor
  · intro h
    cases hc : svc.createQueue name <;>
      simp [resolveQueue, h, hc, createCount, isCreateOf]
  · intro res h
    simp [resolveQueue, h, createCount, isCreateOf]

/-- Witness for C2: a not-found run creates exactly once; a successful
lookup run creates nothing and returns the looked-up handle. -/
theorem C2_lookup_create_discipline_witness :
    createCount "bruh" (resolveQueue svcNotFound "bruh").2 = 1 ∧
    createCount "bruh" (resolveQueue svcAllOk "bruh").2 = 0 ∧
    (resolveQueue svcAllOk "bruh").1 = .ok (some (queueUrlOf "bruh")) :=
  ⟨(C2_lookup_create_discipline svcNotFound "bruh").1 rfl,
   ((C2_lookup_create_discipline svcAllOk "bruh").2
      { queueUrl := some (queueUrlOf "bruh") } rfl).1,
   ((C2_lookup_create_discipline svcAllOk "bruh").2
      { queueUrl := some (queueUrlOf "bruh") } rfl).2⟩

/-- C3: against the modelled service state, resolving the same queue
name twice in sequence yields the same queue handle both times, the
queue is never created on the second resolve (so at most once in
total), and the handle is the URL the service derives for that name. -/
theorem C3_resolve_idempotent (s : ServiceState) (name : String) :
    (resolveAgainst (resolveAgainst s name).state name).url =
      (resolveAgainst s name).url ∧
    (resolveAgainst (resolveAgainst s name).state name).createdQueue = false ∧
    (resolveAgainst s name).url = some (queueUrlOf name) := by
  by_cases h : name ∈ s.queues <;>
    simp [resolveAgainst, lookupQueue, createQueueSvc, h]

/-- C4: publishing the scripts' message into an empty queue and then
receiving with `MaxNumberOfMessages=10`, `VisibilityTimeout=0`,
`WaitTimeSeconds=0` returns a batch holding exactly that message:
body `"Hello World!"` and MessageId equal to the id the publish
response carried. -/
theorem C4_publish_then_receive (q : QueueState) (url : Option String)
    (h : q.messages = []) :
    ∃ mid,
      (publishSvc q (theSendRequest url)).2.messageId = some mid ∧
      receiveSvc (publishSvc q (theSendRequest url)).1
          (theReceiveRequest url ["Test"]) =
        [{ messageId := mid, body := "Hello World!"
           messageAttributes :=
             [("Test", { dataType := "String", stringValue := "TestString" })] }] := by
  refine ⟨"msg-" ++ toString q.nextId, rfl, ?_⟩
  simp [publishSvc, receiveSvc, theSendRequest, theReceiveRequest,
    filterAttributes, h]

/-- Witness for C4 at the concrete empty queue. -/
theorem C4_publish_then_receive_witness :
    ∃ mid,
      (publishSvc emptyQueue (theSendRequest (some "u"))).2.messageId = some mid ∧
      receiveSvc (publishSvc emptyQueue (theSendRequest (some "u"))).1
          (theReceiveRequest (some "u") ["Test"]) =
        [{ messageId := mid, body := "Hello World!"
           messageAttributes :=
             [("Test", { dataType := "String", stringValue := "TestString" })] }] :=
  C4_publish_then_receive emptyQueue (some "u") rfl

/-- C5: the send request the scripts build carries exactly the one
attribute `Test` with the explicit data-type tag `"String"` — every
attribute sent has its `DataType` written out literally, independent
of the value — and the publish call answers with a non-empty
MessageId. -/
theorem C5_publish_explicit_type_and_id (url : Option String) (q : QueueState) :
    (theSendRequest url).messageBody = "Hello World!" ∧
    (theSendRequest url).messageAttributes =
      [("Test", { dataType := "String", stringValue := "TestString" })] ∧
    (∀ a ∈ (theSendRequest url).messageAttributes, a.2.dataType = "String") ∧
    ∃ mid, (publishSvc q (theSendRequest url)).2.messageId = some mid ∧
      mid ≠ "" := by
  refine ⟨rfl, rfl, ?_, "msg-" ++ toString q.nextId, rfl, ?_⟩
  · simp [theSendRequest]
  · intro hc
    have hlen := congrArg String.length hc
    simp [String.length_append] at hlen
    exact absurd hlen.1 (by decide)

/-- Witness for C5 at a concrete request and queue. -/
theorem C5_publish_explicit_type_and_id_witness :
    (theSendRequest (some "u")).messageBody = "Hello World!" ∧
    ("Test", ({ dataType := "String", stringValue := "TestString" } :
        MessageAttributeValue)).2.dataType = "String" ∧
    ∃ mid, (publishSvc emptyQueue (theSendRequest (some "u"))).2.messageId =
      some mid ∧ mid ≠ "" :=
  ⟨(C5_publish_explicit_type_and_id (some "u") emptyQueue).1,
   (C5_publish_explicit_type_and_id (some "u") emptyQueue).2.2.1 _
     (by simp [theSendRequest]),
   (C5_publish_explicit_type_and_id (some "u") emptyQueue).2.2.2⟩

/-- C6: requesting the attribute subset `["Test"]` returns only the
`Test` attribute — every attribute in the filtered list is named
`Test`, a stored `Test` attribute is kept, and stored attributes with
other names are dropped rather than raising an error — while
requesting `"All"` returns every stored attribute. -/
theorem C6_attribute_filtering (attrs : List (String × MessageAttributeValue)) :
    (∀ p ∈ filterAttributes ["Test"] attrs, p.1 = "Test") ∧
    (∀ p ∈ attrs, p.1 = "Test" → p ∈ filterAttributes ["Test"] attrs) ∧
    filterAttributes ["All"] attrs = attrs := by
  refine ⟨?_, ?_, ?_⟩
  · simp [filterAttributes, List.mem_filter]
  · intro p hp hname
    simp [filterAttributes, List.mem_filter, hp, hname]
  · simp [filterAttributes]

/-- Witness for C6 at a message carrying the `Test` attribute and one
other attribute. -/
theorem C6_attribute_filtering_witness :
    (∀ p ∈ filterAttributes ["Test"] sampleAttrs, p.1 = "Test") ∧
    ("Test", ({ dataType := "String", stringValue := "TestString" } :
        MessageAttributeValue)) ∈ filterAttributes ["Test"] sampleAttrs ∧
    filterAttributes ["All"] sampleAttrs = sampleAttrs :=
  ⟨(C6_attribute_filtering sampleAttrs).1,
   (C6_attribute_filtering sampleAttrs).2.1 _ (by simp [sampleAttrs]) rfl,
   (C6_attribute_filtering sampleAttrs).2.2⟩

/-- C7: the receive request carries the caller-supplied
`ReceiveRequestAttemptId` unchanged (the scripts supply the token
`"1"`), and against the attempt-collapsing service two receive calls
that carry the same token yield the identical batch, so the caller
never double-counts a message as newly delivered. -/
theorem C7_dedup_token_passthrough (url : Option String)
    (names : List String) (token : String) (q : QueueState)
    (attempts : List (String × List InboundMessage))
    (req : ReceiveMessageRequest) :
    (clientReceiveRequest url names token).receiveRequestAttemptId = token ∧
    theReceiveRequest url names = clientReceiveRequest url names "1" ∧
    (receiveDedup q (receiveDedup q attempts req).2 req).1 =
      (receiveDedup q attempts req).1 := by
  refine ⟨rfl, rfl, ?_⟩
  cases hl : attempts.lookup req.receiveRequestAttemptId <;>
    simp [receiveDedup, hl, List.lookup]

/-- C8: whenever the workflow completes, its call trace is exactly the
strict sequence lookup (optionally followed by the fallback create),
then one send, then one receive — each call issued only after the
previous one returned — and the only state the later steps take from
the first is the resolved handle `url`, which both the send and the
receive request carry unchanged. -/
theorem C8_sequential_order (svc : Service) (names : List String)
    (url : Option String) (msgs : Option (List InboundMessage))
    (h : (runMain svc names).2 = .ok (url, msgs)) :
    (runMain svc names).1 =
      [.getQueueUrl "bruh", .sendMessage (theSendRequest url),
       .receiveMessage (theReceiveRequest url names)] ∨
    (runMain svc names).1 =
      [.getQueueUrl "bruh", .createQueue "bruh",
       .sendMessage (theSendRequest url),
       .receiveMessage (theReceiveRequest url names)] := by
  cases hg : svc.getQueueUrl "bruh" with
  | ok res =>
      cases hs : svc.sendMessage (theSendRequest res.queueUrl) with
      | error e => simp [runMain, resolveQueue, hg, hs] at h
      | ok sr =>
          cases hr : svc.receiveMessage (theReceiveRequest res.queueUrl names) with
          | error e => simp [runMain, resolveQueue, hg, hs, hr] at h
          | ok m =>
              simp only [runMain, resolveQueue, hg, hs, hr] at h ⊢
              simp at h
              obtain ⟨h1, h2⟩ := h
              subst h1
              simp
  | error e =>
      cases hc : svc.createQueue "bruh" with
      | error e2 => simp [runMain, resolveQueue, hg, hc] at h
      | ok cres =>
          cases hs : svc.sendMessage (theSendRequest cres.queueUrl) with
          | error e2 => simp [runMain, resolveQueue, hg, hc, hs] at h
          | ok sr =>
              cases hr : svc.receiveMessage (theReceiveRequest cres.queueUrl names) with
              | error e2 => simp [runMain, resolveQueue, hg, hc, hs, hr] at h
              | ok m =>
                  simp only [runMain, resolveQueue, hg, hc, hs, hr] at h ⊢
                  simp at h
                  obtain ⟨h1, h2⟩ := h
                  subst h1
                  simp

/-- Witness for C8 at a run where every call succeeds. -/
theorem C8_sequential_order_witness :
    (runMain svcAllOk ["Test"]).1 =
      [.getQueueUrl "bruh",
       .sendMessage (theSendRequest (some (queueUrlOf "bruh"))),
       .receiveMessage (theReceiveRequest (some (queueUrlOf "bruh")) ["Test"])] ∨
    (runMain svcAllOk ["Test"]).1 =
      [.getQueueUrl "bruh", .createQueue "bruh",
       .sendMessage (theSendRequest (some (queueUrlOf "bruh"))),
       .receiveMessage (theReceiveRequest (some (queueUrlOf "bruh")) ["Test"])] :=
  C8_sequential_order svcAllOk ["Test"] (some (queueUrlOf "bruh"))
    (some []) rfl

/-- C9: against any service the two scripts issue the same call
sequence — same queue name, same send request (body and attributes),
same receive parameters — differing only in the requested
message-attribute names (erased on both sides below) and in the
configured credentials; region and endpoint agree. -/
theorem C9_scripts_equivalent (svc : Service) :
    (examplePyMain svc).1.map eraseMsgAttrNames =
      (nervemqMainPy svc).1.map eraseMsgAttrNames ∧
    exampleConfig.regionName = nervemqExampleConfig.regionName ∧
    exampleConfig.endpointUrl = nervemqExampleConfig.endpointUrl ∧
    exampleConfig.accessKeyId ≠ nervemqExampleConfig.accessKeyId ∧
    exampleConfig.secretAccessKey ≠ nervemqExampleConfig.secretAccessKey := by
  refine ⟨?_, rfl, rfl, by decide, by decide⟩
  cases hg : svc.getQueueUrl "bruh" with
  | ok res =>
      cases hs : svc.sendMessage (theSendRequest res.queueUrl) with
      | error e =>
          simp [examplePyMain, nervemqMainPy, runMain, resolveQueue, hg, hs,
            eraseMsgAttrNames]
      | ok sr =>
          cases hr1 : svc.receiveMessage (theReceiveRequest res.queueUrl ["Test"]) <;>
          cases hr2 : svc.receiveMessage (theReceiveRequest res.queueUrl ["All"]) <;>
            (simp [examplePyMain, nervemqMainPy, runMain, resolveQueue, hg, hs,
               hr1, hr2, eraseMsgAttrNames];
             simp [theReceiveRequest])
  | error e =>
      cases hc : svc.createQueue "bruh" with
      | error e2 =>
          simp [examplePyMain, nervemqMainPy, runMain, resolveQueue, hg, hc]
      | ok cres =>
          cases hs : svc.sendMessage (theSendRequest cres.queueUrl) with
          | error e2 =>
              simp [examplePyMain, nervemqMainPy, runMain, resolveQueue, hg, hc,
                hs, eraseMsgAttrNames]
          | ok sr =>
              cases hr1 : svc.receiveMessage (theReceiveRequest cres.queueUrl ["Test"]) <;>
              cases hr2 : svc.receiveMessage (theReceiveRequest cres.queueUrl ["All"]) <;>
                (simp [examplePyMain, nervemqMainPy, runMain, resolveQueue, hg, hc,
                   hs, hr1, hr2, eraseMsgAttrNames];
                 simp [theReceiveRequest])

/-- Witness for C9 at a run where every call succeeds: the two
scripts issue the same call sequence modulo the requested
message-attribute names. -/
theorem C9_scripts_equivalent_witness :
    (examplePyMain svcAllOk).1.map eraseMsgAttrNames =
      (nervemqMainPy svcAllOk).1.map eraseMsgAttrNames :=
  (C9_scripts_equivalent svcAllOk).1

/-- C10: when the resolve step succeeds without a `QueueUrl` in the
response — whether the lookup itself succeeded without the key, or the
lookup failed and the fallback create succeeded without the key — the
workflow proceeds with the handle `none` without any validation: the
send request it issues carries `QueueUrl = none`, and once the send
succeeds the receive request it issues carries `QueueUrl = none` as
well. -/
theorem C10_missing_url_gives_none_handle (svc : Service)
    (names : List String)
    (h : svc.getQueueUrl "bruh" = .ok { queueUrl := none } ∨
      (∃ e, svc.getQueueUrl "bruh" = .error e) ∧
        svc.createQueue "bruh" = .ok { queueUrl := none }) :
    (theSendRequest none).queueUrl = none ∧
    (theReceiveRequest none names).queueUrl = none ∧
    Op.sendMessage (theSendRequest none) ∈ (runMain svc names).1 ∧
    (∀ r, svc.sendMessage (theSendRequest none) = .ok r →
      Op.receiveMessage (theReceiveRequest none names) ∈ (runMain svc names).1) := by
  rcases h with hg | ⟨⟨e, hg⟩, hc⟩
  · refine ⟨rfl, rfl, ?_, ?_⟩
    · cases hs : svc.sendMessage (theSendRequest none) with
      | error e2 => simp [runMain, resolveQueue, hg, hs]
      | ok sr =>
          cases hr : svc.receiveMessage (theReceiveRequest none names) <;>
            simp [runMain, resolveQueue, hg, hs, hr]
    · intro r hs
      cases hr : svc.receiveMessage (theReceiveRequest none names) <;>
        simp [runMain, resolveQueue, hg, hs, hr]
  · refine ⟨rfl, rfl, ?_, ?_⟩
    · cases hs : svc.sendMessage (theSendRequest none) with
      | error e2 => simp [runMain, resolveQueue, hg, hc, hs]
      | ok sr =>
          cases hr : svc.receiveMessage (theReceiveRequest none names) <;>
            simp [runMain, resolveQueue, hg, hc, hs, hr]
    · intro r hs
      cases hr : svc.receiveMessage (theReceiveRequest none names) <;>
        simp [runMain, resolveQueue, hg, hc, hs, hr]

/-- Witness for C10 at both runs the claim names: a lookup that
answers without a `QueueUrl` key, and a failed lookup whose fallback
create answers without the key — in each, the send and receive calls
are issued with handle `none`. -/
theorem C10_missing_url_gives_none_handle_witness :
    (Op.sendMessage (theSendRequest none) ∈ (runMain svcNoUrl ["Test"]).1 ∧
     Op.receiveMessage (theReceiveRequest none ["Test"]) ∈
       (runMain svcNoUrl ["Test"]).1) ∧
    (Op.sendMessage (theSendRequest none) ∈ (runMain svcCreateNoUrl ["Test"]).1 ∧
     Op.receiveMessage (theReceiveRequest none ["Test"]) ∈
       (runMain svcCreateNoUrl ["Test"]).1) :=
  ⟨⟨(C10_missing_url_gives_none_handle svcNoUrl ["Test"] (Or.inl rfl)).2.2.1,
    (C10_missing_url_gives_none_handle svcNoUrl ["Test"] (Or.inl rfl)).2.2.2
      { messageId := some "msg-0" } rfl⟩,
   ⟨(C10_missing_url_gives_none_handle svcCreateNoUrl ["Test"]
       (Or.inr ⟨⟨.notFound, rfl⟩, rfl⟩)).2.2.1,
    (C10_missing_url_gives_none_handle svcCreateNoUrl ["Test"]
       (Or.inr ⟨⟨.notFound, rfl⟩, rfl⟩)).2.2.2
      { messageId := some "msg-0" } rfl⟩⟩

end NerveMQ
